import Mathlib

/-!
Shallow embedding of the tiered threshold-monitoring engine of the
atp-watcher bot (TypeScript sources: `src/services/price-watcher.ts`,
`src/services/agents.ts`, the holdings watcher, IQ price watcher and
SQLite database service).

Numeric values (`number` in TypeScript) are modelled as rationals `ℚ`;
timestamps as natural-number ticks.  Fallible external fetches are
modelled as `Option ℚ` arguments (`Option.none` = the request threw, i.e.
the `catch` branch runs).  Each watcher cycle becomes a pure step
function returning the new state, the list of emitted events, and the
list of database writes, in program order.
-/

/-- Severity tier assigned to a percentage change; `Tier.none` means the
change met no threshold (the `threshold = 0, shouldAlert = false` case in
the TypeScript cascade). -/
inductive Tier where
  | none
  | minor
  | major
  | critical
deriving Repr, DecidableEq

/-- Embeds `ThresholdConfig` from `price-watcher.ts`: the three percentage
magnitudes. -/
structure ThresholdConfig where
  minor : ℚ
  major : ℚ
  critical : ℚ
deriving Repr, DecidableEq

/-- Embeds `AgentsApiService.calculatePercentageChange` (agents.ts): returns 0
when the old value is exactly 0, otherwise the relative change in
percent.  Note the guard is `oldValue === 0`, not `oldValue <= 0`. -/
def calculatePercentageChange (oldValue newValue : ℚ) : ℚ :=
  if oldValue = 0 then 0 else (newValue - oldValue) / oldValue * 100

/-- The threshold cascade shared verbatim by
`PriceWatcher.checkTokenPrice` and `IQPriceWatcher.checkIQPrice`:
`if |Δ%| ≥ critical … else if |Δ%| ≥ major … else if |Δ%| ≥ minor …`. -/
def classifyChange (t : ThresholdConfig) (changePercentage : ℚ) : Tier :=
  if |changePercentage| ≥ t.critical then Tier.critical
  else if |changePercentage| ≥ t.major then Tier.major
  else if |changePercentage| ≥ t.minor then Tier.minor
  else Tier.none

/-- Embeds `TokenWatchConfig` from `price-watcher.ts` (the token contract key is
kept outside, as the map key). -/
structure TokenWatchConfig where
  tokenName : String
  thresholds : ThresholdConfig
  checkInterval : ℚ
  enableMinorAlerts : Bool
  enableMajorAlerts : Bool
  enableCriticalAlerts : Bool
deriving Repr, DecidableEq

/-- Embeds `TrackedToken` from `price-watcher.ts`; `intervalId` is abstracted to
whether a timer handle is registered. -/
structure TrackedToken where
  config : TokenWatchConfig
  lastPrice : ℚ
  lastCheckTime : ℕ
  intervalId : Bool
deriving Repr, DecidableEq

/-- Events observable from one token-price cycle: an emitted `alert`
(with its tier and percentage change) or an emitted `error`. -/
inductive TokenEvent where
  | alert (tier : Tier) (changePercentage : ℚ)
  | error
deriving Repr, DecidableEq

/-- Database writes issued by the embedded operations, in program
order. -/
inductive DbWrite where
  | addPriceHistory (price : ℚ) (timestamp : ℕ)
  | updateWatchedToken (lastPrice : ℚ) (lastCheckTime : ℕ)
  | addWatchedToken (minorThreshold majorThreshold criticalThreshold : ℚ)
      (checkInterval : ℚ) (lastPrice : ℚ)
  | updateWatchedTokenConfig (tokenName : String) (thresholds : ThresholdConfig)
      (checkInterval : ℚ) (enableMinorAlerts enableMajorAlerts enableCriticalAlerts : Bool)
  | updateWatchedTokenAlerts (enableMinorAlerts enableMajorAlerts enableCriticalAlerts : Bool)
  | addAlert
deriving Repr, DecidableEq

/-- The `(alertType, threshold, shouldAlert)` triple set by the cascade in
`PriceWatcher.checkTokenPrice` (lines 344–365): each branch of
`classifyChange` corresponds to one branch of the source cascade. -/
def alertCascade (cfg : TokenWatchConfig) (changePercentage : ℚ) : Tier × ℚ × Bool :=
  match classifyChange cfg.thresholds changePercentage with
  | Tier.critical => (Tier.critical, cfg.thresholds.critical, cfg.enableCriticalAlerts)
  | Tier.major => (Tier.major, cfg.thresholds.major, cfg.enableMajorAlerts)
  | Tier.minor => (Tier.minor, cfg.thresholds.minor, cfg.enableMinorAlerts)
  | Tier.none => (Tier.none, 0, false)

/-- One cycle of `PriceWatcher.checkTokenPrice` for one tracked token.
`fetch = Option.none` models the `getAgentStats` call throwing: the
`catch` branch emits an error event and touches nothing.  On success with
a zero percentage change the source returns early — no alert, no history
row, no state update.  Otherwise it runs the cascade, possibly emits an
alert, appends a price-history row and updates the token state and its
database row. -/
def checkTokenPrice (token : TrackedToken) (fetch : Option ℚ) (now : ℕ) :
    TrackedToken × List TokenEvent × List DbWrite :=
  match fetch with
  | Option.none => (token, [TokenEvent.error], [])
  | Option.some currentPrice =>
    let previousPrice := token.lastPrice
    let changePercentage := calculatePercentageChange previousPrice currentPrice
    if |changePercentage| = 0 then (token, [], [])
    else
      let c := alertCascade token.config changePercentage
      let events :=
        if c.2.2 = true ∧ 0 < c.2.1 then [TokenEvent.alert c.1 changePercentage] else []
      ({ token with lastPrice := currentPrice, lastCheckTime := now },
       events,
       [DbWrite.addPriceHistory currentPrice now,
        DbWrite.updateWatchedToken currentPrice now])

/-- Holds exactly for an emitted alert event (as opposed to an error). -/
def isAlertEvent : TokenEvent → Bool
  | TokenEvent.alert _ _ => true
  | TokenEvent.error => false

/-- Embeds `WatcherConfig` of the holdings watcher. -/
structure HoldingsWatcherConfig where
  address : String
  thresholdUsd : ℚ
  checkInterval : ℚ
  significantChangePercentage : ℚ
deriving Repr, DecidableEq

/-- Mutable state of `HoldingsWatcher`: last sampled portfolio value,
last check tick, and the milestone latch. -/
structure HoldingsState where
  lastKnownValue : ℚ
  lastCheckTime : ℕ
  thresholdReached : Bool
deriving Repr, DecidableEq

/-- Events observable from one holdings cycle. -/
inductive HoldingsEvent where
  | significantChange (changePercentage : ℚ)
  | thresholdReached
  | error
deriving Repr, DecidableEq

/-- Holds exactly for an emitted percentage-change alert. -/
def isSignificantChangeEvent : HoldingsEvent → Bool
  | HoldingsEvent.significantChange _ => true
  | _ => false

/-- One cycle of `HoldingsWatcher.checkHoldings`.  On fetch failure the
`catch` branch emits an error and touches nothing.  On success: first the
percentage-change alert (guarded by `lastKnownValue > 0` and
`|Δ%| > 0 && |Δ%| >= significantChangePercentage`, with a `database.addAlert`
write), then the milestone latch (`threshold_reached` fires on
`currentValue >= thresholdUsd && !thresholdReached`, and the latch resets
on `currentValue < thresholdUsd && thresholdReached`), then the state
update. -/
def checkHoldings (cfg : HoldingsWatcherConfig) (s : HoldingsState)
    (fetch : Option ℚ) (now : ℕ) :
    HoldingsState × List HoldingsEvent × List DbWrite :=
  match fetch with
  | Option.none => (s, [HoldingsEvent.error], [])
  | Option.some currentValue =>
    let sig : List HoldingsEvent × List DbWrite :=
      if 0 < s.lastKnownValue then
        let changePercentage := calculatePercentageChange s.lastKnownValue currentValue
        if 0 < |changePercentage| ∧ cfg.significantChangePercentage ≤ |changePercentage| then
          ([HoldingsEvent.significantChange changePercentage], [DbWrite.addAlert])
        else ([], [])
      else ([], [])
    let thr : Bool × List HoldingsEvent × List DbWrite :=
      if cfg.thresholdUsd ≤ currentValue ∧ s.thresholdReached = false then
        (true, [HoldingsEvent.thresholdReached], [DbWrite.addAlert])
      else if currentValue < cfg.thresholdUsd ∧ s.thresholdReached = true then
        (false, [], [])
      else (s.thresholdReached, [], [])
    (⟨currentValue, now, thr.1⟩, sig.1 ++ thr.2.1, sig.2 ++ thr.2.2)

/-- Embeds `IQWatcherConfig` from the IQ price watcher. -/
structure IQWatcherConfig where
  minorThreshold : ℚ
  majorThreshold : ℚ
  criticalThreshold : ℚ
  checkInterval : ℚ
  enableMinorAlerts : Bool
  enableMajorAlerts : Bool
  enableCriticalAlerts : Bool
deriving Repr, DecidableEq

/-- Mutable state of `IQPriceWatcher`. -/
structure IQState where
  lastKnownPrice : ℚ
  lastCheckTime : ℕ
deriving Repr, DecidableEq

/-- The three thresholds of the IQ watcher as a `ThresholdConfig`. -/
def iqThresholds (cfg : IQWatcherConfig) : ThresholdConfig :=
  ⟨cfg.minorThreshold, cfg.majorThreshold, cfg.criticalThreshold⟩

/-- The `(severity tier, threshold, shouldAlert)` triple set by the cascade of
`IQPriceWatcher.checkIQPrice` (same conditions as the token cascade). -/
def iqAlertCascade (cfg : IQWatcherConfig) (changePercentage : ℚ) : Tier × ℚ × Bool :=
  match classifyChange (iqThresholds cfg) changePercentage with
  | Tier.critical => (Tier.critical, cfg.criticalThreshold, cfg.enableCriticalAlerts)
  | Tier.major => (Tier.major, cfg.majorThreshold, cfg.enableMajorAlerts)
  | Tier.minor => (Tier.minor, cfg.minorThreshold, cfg.enableMinorAlerts)
  | Tier.none => (Tier.none, 0, false)

/-- One cycle of `IQPriceWatcher.checkIQPrice`.  The whole classification
block is guarded by `previousPrice > 0`; inside it a zero percentage
change returns early (skipping even the history write and state update).
An emitted alert is also stored via `database.addAlert`.  When
`previousPrice <= 0` the cycle still appends the history row and updates
the state. -/
def checkIQPrice (cfg : IQWatcherConfig) (s : IQState) (fetch : Option ℚ) (now : ℕ) :
    IQState × List TokenEvent × List DbWrite :=
  match fetch with
  | Option.none => (s, [TokenEvent.error], [])
  | Option.some currentPrice =>
    if 0 < s.lastKnownPrice then
      let changePercentage := calculatePercentageChange s.lastKnownPrice currentPrice
      if |changePercentage| = 0 then (s, [], [])
      else
        let c := iqAlertCascade cfg changePercentage
        let fired := c.2.2 = true ∧ 0 < c.2.1
        (⟨currentPrice, now⟩,
         if fired then [TokenEvent.alert c.1 changePercentage] else [],
         (if fired then [DbWrite.addAlert] else []) ++ [DbWrite.addPriceHistory currentPrice now])
    else
      (⟨currentPrice, now⟩, [], [DbWrite.addPriceHistory currentPrice now])

/-- In-memory state of `PriceWatcher`: the `trackedTokens` map (as an
association list in insertion order, matching `Map` iteration order) and
the `isRunning` flag. -/
structure PriceWatcherState where
  trackedTokens : List (String × TrackedToken)
  isRunning : Bool
deriving Repr, DecidableEq

/-- Embeds `this.trackedTokens.has(tokenContract)`. -/
def containsToken (s : PriceWatcherState) (tokenContract : String) : Bool :=
  s.trackedTokens.any (fun kv => decide (kv.1 = tokenContract))

/-- Embeds `this.trackedTokens.get(tokenContract)`. -/
def lookupToken (s : PriceWatcherState) (tokenContract : String) : Option TrackedToken :=
  (s.trackedTokens.find? (fun kv => decide (kv.1 = tokenContract))).map Prod.snd

/-- Number of entries of the map with the given key (a JS `Map` keeps at
most one). -/
def countToken (s : PriceWatcherState) (tokenContract : String) : ℕ :=
  (s.trackedTokens.filter (fun kv => decide (kv.1 = tokenContract))).length

/-- Embeds `this.trackedTokens.set(tokenContract, token)`: replaces the entry in
place when the key is present, appends otherwise. -/
def setToken (s : PriceWatcherState) (tokenContract : String) (token : TrackedToken) :
    PriceWatcherState :=
  if containsToken s tokenContract then
    { s with trackedTokens :=
        s.trackedTokens.map (fun kv => if kv.1 = tokenContract then (tokenContract, token) else kv) }
  else
    { s with trackedTokens := s.trackedTokens ++ [(tokenContract, token)] }

/-- Registry-level events of `PriceWatcher`. -/
inductive WatcherEvent where
  | tokenAdded (initialPrice : ℚ)
  | tokenRemoved
deriving Repr, DecidableEq

/-- Outcome of one `PriceWatcher.addToken` call: the new state, whether a
baseline fetch was attempted, the database writes, the emitted events,
and whether the call threw (a failed baseline fetch is rethrown). -/
structure AddTokenResult where
  state : PriceWatcherState
  fetched : Bool
  dbWrites : List DbWrite
  events : List WatcherEvent
  threw : Bool
deriving Repr, DecidableEq

/-- Embeds `PriceWatcher.addToken`: duplicate ids return immediately (no fetch,
no write, no event); otherwise one baseline fetch seeds `lastPrice`, the
token is registered with tiers `minor = t`, `major = t*3`,
`critical = t*5`, and the row is persisted.  `intervalId` is set to
`isRunning` (the `startTrackingToken` timer registration); that call's
immediate first sampling cycle is the separate `checkTokenPrice` step. -/
def addToken (s : PriceWatcherState) (tokenContract tokenName : String)
    (priceChangeThreshold checkInterval : ℚ) (fetch : Option ℚ) (now : ℕ) :
    AddTokenResult :=
  if containsToken s tokenContract then ⟨s, false, [], [], false⟩
  else
    match fetch with
    | Option.none => ⟨s, true, [], [], true⟩
    | Option.some price =>
      let config : TokenWatchConfig :=
        ⟨tokenName,
         ⟨priceChangeThreshold, priceChangeThreshold * 3, priceChangeThreshold * 5⟩,
         checkInterval, true, true, true⟩
      ⟨setToken s tokenContract ⟨config, price, now, s.isRunning⟩,
       true,
       [DbWrite.addWatchedToken priceChangeThreshold (priceChangeThreshold * 3)
          (priceChangeThreshold * 5) checkInterval price],
       [WatcherEvent.tokenAdded price],
       false⟩

/-- Embeds `Partial<TokenWatchConfig>`: absent fields do not overwrite. -/
structure TokenConfigUpdates where
  tokenName : Option String
  thresholds : Option ThresholdConfig
  checkInterval : Option ℚ
  enableMinorAlerts : Option Bool
  enableMajorAlerts : Option Bool
  enableCriticalAlerts : Option Bool
deriving Repr, DecidableEq

/-- The shallow spread `{ ...token.config, ...updates }`. -/
def applyConfigUpdates (c : TokenWatchConfig) (u : TokenConfigUpdates) : TokenWatchConfig :=
  ⟨u.tokenName.getD c.tokenName, u.thresholds.getD c.thresholds,
   u.checkInterval.getD c.checkInterval,
   u.enableMinorAlerts.getD c.enableMinorAlerts,
   u.enableMajorAlerts.getD c.enableMajorAlerts,
   u.enableCriticalAlerts.getD c.enableCriticalAlerts⟩

/-- Embeds `PriceWatcher.updateTokenConfig`: an untracked contract logs and
returns (no mutation, no write, no throw); a tracked one has the updates
merged into the in-memory config and the merged values persisted —
the source performs no validation of the tier ordering or the interval.
The conditional loop restart at the end only re-arms the timer. -/
def updateTokenConfig (s : PriceWatcherState) (tokenContract : String)
    (u : TokenConfigUpdates) : PriceWatcherState × List DbWrite :=
  match lookupToken s tokenContract with
  | Option.none => (s, [])
  | Option.some token =>
    let config := applyConfigUpdates token.config u
    (setToken s tokenContract { token with config := config },
     [DbWrite.updateWatchedTokenConfig config.tokenName config.thresholds
        config.checkInterval config.enableMinorAlerts config.enableMajorAlerts
        config.enableCriticalAlerts])

/-- The partial alert-flag argument of `updateTokenAlerts`. -/
structure AlertConfigUpdates where
  enableMinorAlerts : Option Bool
  enableMajorAlerts : Option Bool
  enableCriticalAlerts : Option Bool
deriving Repr, DecidableEq

/-- Embeds `PriceWatcher.updateTokenAlerts`: an untracked contract throws
(`Error: Token ... is not being tracked`) before any mutation; a tracked
one has the defined flags merged and persisted.  The third component is
`true` when the call threw. -/
def updateTokenAlerts (s : PriceWatcherState) (tokenContract : String)
    (u : AlertConfigUpdates) : PriceWatcherState × List DbWrite × Bool :=
  match lookupToken s tokenContract with
  | Option.none => (s, [], true)
  | Option.some token =>
    let config := { token.config with
      enableMinorAlerts := u.enableMinorAlerts.getD token.config.enableMinorAlerts,
      enableMajorAlerts := u.enableMajorAlerts.getD token.config.enableMajorAlerts,
      enableCriticalAlerts := u.enableCriticalAlerts.getD token.config.enableCriticalAlerts }
    (setToken s tokenContract { token with config := config },
     [DbWrite.updateWatchedTokenAlerts config.enableMinorAlerts
        config.enableMajorAlerts config.enableCriticalAlerts],
     false)

/-- One row of the `price_history` table (for a single target). -/
structure PriceHistoryRow where
  price : ℚ
  timestamp : ℕ
deriving Repr, DecidableEq

/-- Number of rows of the table with a strictly later timestamp than
`r`. -/
def countLaterRows (h : List PriceHistoryRow) (r : PriceHistoryRow) : ℕ :=
  (h.filter (fun r2 => decide (r.timestamp < r2.timestamp))).length

/-- Embeds `DatabaseService.cleanOldPriceHistory`, restricted to a single
target's partition: the SQL keeps exactly the rows whose
`ROW_NUMBER() OVER (ORDER BY timestamp DESC)` is at most 1000, i.e. (for
distinct timestamps) the rows with fewer than 1000 strictly later rows. -/
def cleanOldPriceHistory (h : List PriceHistoryRow) : List PriceHistoryRow :=
  h.filter (fun r => decide (countLaterRows h r < 1000))

/-- Applies the `addPriceHistory` inserts of a cycle to the (single
target's) `price_history` table; no other write touches that table. -/
def applyHistoryWrites (h : List PriceHistoryRow) (ws : List DbWrite) :
    List PriceHistoryRow :=
  ws.foldl
    (fun acc w =>
      match w with
      | DbWrite.addPriceHistory p t => acc ++ [⟨p, t⟩]
      | _ => acc)
    h

/-- Iterates `checkTokenPrice` sampling cycles over a list of fetch
outcomes, accumulating the `price_history` rows the cycles insert.  This
is the only code path of the repository that touches `price_history`
during monitoring: nothing ever calls `cleanOldPriceHistory`. -/
def runTokenPriceCycles (token : TrackedToken) (h : List PriceHistoryRow) :
    List (Option ℚ) → TrackedToken × List PriceHistoryRow
  | [] => (token, h)
  | f :: fs =>
    let step := checkTokenPrice token f h.length
    runTokenPriceCycles step.1 (applyHistoryWrites h step.2.2) fs

/-- A list of `n` successful fetches with strictly increasing prices
`k+2, k+3, …` (so that consecutive cycles always see a nonzero
percentage change). -/
def incFetches : ℕ → ℕ → List (Option ℚ)
  | _, 0 => []
  | k, n + 1 => Option.some ((k : ℚ) + 2) :: incFetches (k + 1) n

/-- Iterates `checkHoldings` cycles, recording each cycle's emitted
events. -/
def runHoldingsCycles (cfg : HoldingsWatcherConfig) (s : HoldingsState) :
    List (Option ℚ) → HoldingsState × List (List HoldingsEvent)
  | [] => (s, [])
  | f :: fs =>
    let step := checkHoldings cfg s f 0
    let rest := runHoldingsCycles cfg step.1 fs
    (rest.1, step.2.1 :: rest.2)

/-! ### Helper lemmas -/

lemma checkTokenPrice_none (token : TrackedToken) (now : ℕ) :
    checkTokenPrice token Option.none now = (token, [TokenEvent.error], []) := rfl

lemma checkTokenPrice_some (token : TrackedToken) (currentPrice : ℚ) (now : ℕ) :
    checkTokenPrice token (Option.some currentPrice) now =
      (let changePercentage := calculatePercentageChange token.lastPrice currentPrice
       if |changePercentage| = 0 then (token, [], [])
       else
         let c := alertCascade token.config changePercentage
         let events :=
           if c.2.2 = true ∧ 0 < c.2.1 then [TokenEvent.alert c.1 changePercentage] else []
         ({ token with lastPrice := currentPrice, lastCheckTime := now },
          events,
          [DbWrite.addPriceHistory currentPrice now,
           DbWrite.updateWatchedToken currentPrice now])) := rfl

lemma checkTokenPrice_pct (token : TrackedToken) (currentPrice p : ℚ) (now : ℕ)
    (hp : calculatePercentageChange token.lastPrice currentPrice = p) (hne : p ≠ 0) :
    checkTokenPrice token (Option.some currentPrice) now =
      ({ token with lastPrice := currentPrice, lastCheckTime := now },
       (if (alertCascade token.config p).2.2 = true ∧ 0 < (alertCascade token.config p).2.1
        then [TokenEvent.alert (alertCascade token.config p).1 p] else []),
       [DbWrite.addPriceHistory currentPrice now,
        DbWrite.updateWatchedToken currentPrice now]) := by
  rw [checkTokenPrice_some]
  simp only [hp, abs_eq_zero]
  rw [if_neg hne]

lemma checkTokenPrice_zero_pct (token : TrackedToken) (currentPrice : ℚ) (now : ℕ)
    (hp : calculatePercentageChange token.lastPrice currentPrice = 0) :
    checkTokenPrice token (Option.some currentPrice) now = (token, [], []) := by
  rw [checkTokenPrice_some]
  simp [hp]

lemma checkHoldings_some (cfg : HoldingsWatcherConfig) (s : HoldingsState)
    (currentValue : ℚ) (now : ℕ) :
    checkHoldings cfg s (Option.some currentValue) now =
      (let sig : List HoldingsEvent × List DbWrite :=
        if 0 < s.lastKnownValue then
          let changePercentage := calculatePercentageChange s.lastKnownValue currentValue
          if 0 < |changePercentage| ∧ cfg.significantChangePercentage ≤ |changePercentage| then
            ([HoldingsEvent.significantChange changePercentage], [DbWrite.addAlert])
          else ([], [])
        else ([], [])
      let thr : Bool × List HoldingsEvent × List DbWrite :=
        if cfg.thresholdUsd ≤ currentValue ∧ s.thresholdReached = false then
          (true, [HoldingsEvent.thresholdReached], [DbWrite.addAlert])
        else if currentValue < cfg.thresholdUsd ∧ s.thresholdReached = true then
          (false, [], [])
        else (s.thresholdReached, [], [])
      (⟨currentValue, now, thr.1⟩, sig.1 ++ thr.2.1, sig.2 ++ thr.2.2)) := rfl

/-- The percentage-alert part of a holdings cycle never emits the
milestone constructor, and vice versa. -/
lemma checkHoldings_events (cfg : HoldingsWatcherConfig) (s : HoldingsState)
    (currentValue : ℚ) (now : ℕ) :
    (checkHoldings cfg s (Option.some currentValue) now).2.1 =
      ((if 0 < s.lastKnownValue then
          let changePercentage := calculatePercentageChange s.lastKnownValue currentValue
          if 0 < |changePercentage| ∧ cfg.significantChangePercentage ≤ |changePercentage| then
            [HoldingsEvent.significantChange changePercentage]
          else []
        else []) ++
       (if cfg.thresholdUsd ≤ currentValue ∧ s.thresholdReached = false then
          [HoldingsEvent.thresholdReached]
        else [])) := by
  rw [checkHoldings_some]
  by_cases h1 : 0 < s.lastKnownValue <;>
    by_cases h2 : cfg.thresholdUsd ≤ currentValue ∧ s.thresholdReached = false <;>
      simp only [h1, h2, if_pos, if_neg, if_true, if_false, not_false_iff] <;>
        split_ifs <;> rfl

lemma checkHoldings_latch (cfg : HoldingsWatcherConfig) (s : HoldingsState)
    (currentValue : ℚ) (now : ℕ) :
    (checkHoldings cfg s (Option.some currentValue) now).1.thresholdReached =
      decide (cfg.thresholdUsd ≤ currentValue) := by
  rw [checkHoldings_some]
  dsimp only
  rcases hr : s.thresholdReached <;> by_cases hv : cfg.thresholdUsd ≤ currentValue
  · simp [hr, hv]
  · simp [hr, hv]
  · simp [hr, hv, not_lt.mpr hv]
  · simp [hr, hv, not_le.mp hv]

lemma classifyChange_eq_iff (t : ThresholdConfig) (p : ℚ)
    (h2 : t.minor < t.major) (h3 : t.major < t.critical) :
    (classifyChange t p = Tier.critical ↔ t.critical ≤ |p|) ∧
    (classifyChange t p = Tier.major ↔ t.major ≤ |p| ∧ |p| < t.critical) ∧
    (classifyChange t p = Tier.minor ↔ t.minor ≤ |p| ∧ |p| < t.major) ∧
    (classifyChange t p = Tier.none ↔ |p| < t.minor) := by
  unfold classifyChange
  split_ifs with hc hm hmn <;> refine ⟨?_, ?_, ?_, ?_⟩ <;> simp_all <;>
    first
      | linarith
      | (intro h; linarith)

/-! ### Claim theorems -/

/-- C1: for every tier config with `0 < minor < major < critical` and
every `previousValue > 0`, the classification cascade assigns exactly the
highest tier whose magnitude threshold is met (tested critical → major →
minor, at most one tier per change); in particular with config
`{minor 2, major 10, critical 20}`, `100 → 121` (Δ% = 21) is critical and
`100 → 103` (Δ% = 3) is minor. -/
theorem classifyChange_highest_tier (t : ThresholdConfig) (previousValue currentValue : ℚ)
    (h1 : 0 < t.minor) (h2 : t.minor < t.major) (h3 : t.major < t.critical)
    (hprev : 0 < previousValue) :
    ((classifyChange t (calculatePercentageChange previousValue currentValue) = Tier.critical ↔
        t.critical ≤ |calculatePercentageChange previousValue currentValue|) ∧
     (classifyChange t (calculatePercentageChange previousValue currentValue) = Tier.major ↔
        t.major ≤ |calculatePercentageChange previousValue currentValue| ∧
          |calculatePercentageChange previousValue currentValue| < t.critical) ∧
     (classifyChange t (calculatePercentageChange previousValue currentValue) = Tier.minor ↔
        t.minor ≤ |calculatePercentageChange previousValue currentValue| ∧
          |calculatePercentageChange previousValue currentValue| < t.major) ∧
     (classifyChange t (calculatePercentageChange previousValue currentValue) = Tier.none ↔
        |calculatePercentageChange previousValue currentValue| < t.minor)) ∧
    classifyChange ⟨2, 10, 20⟩ (calculatePercentageChange 100 121) = Tier.critical ∧
    classifyChange ⟨2, 10, 20⟩ (calculatePercentageChange 100 103) = Tier.minor := by
  refine ⟨classifyChange_eq_iff t _ h2 h3, ?_, ?_⟩
  · have hp : calculatePercentageChange 100 121 = 21 := by
      norm_num [calculatePercentageChange]
    rw [hp]; decide
  · have hp : calculatePercentageChange 100 103 = 3 := by
      norm_num [calculatePercentageChange]
    rw [hp]; decide

theorem classifyChange_highest_tier_witness :
    ((classifyChange ⟨2, 10, 20⟩ (calculatePercentageChange 100 121) = Tier.critical ↔
        (20 : ℚ) ≤ |calculatePercentageChange 100 121|) ∧
     (classifyChange ⟨2, 10, 20⟩ (calculatePercentageChange 100 121) = Tier.major ↔
        (10 : ℚ) ≤ |calculatePercentageChange 100 121| ∧
          |calculatePercentageChange 100 121| < 20) ∧
     (classifyChange ⟨2, 10, 20⟩ (calculatePercentageChange 100 121) = Tier.minor ↔
        (2 : ℚ) ≤ |calculatePercentageChange 100 121| ∧
          |calculatePercentageChange 100 121| < 10) ∧
     (classifyChange ⟨2, 10, 20⟩ (calculatePercentageChange 100 121) = Tier.none ↔
        |calculatePercentageChange 100 121| < 2)) ∧
    classifyChange ⟨2, 10, 20⟩ (calculatePercentageChange 100 121) = Tier.critical ∧
    classifyChange ⟨2, 10, 20⟩ (calculatePercentageChange 100 103) = Tier.minor :=
  classifyChange_highest_tier ⟨2, 10, 20⟩ 100 121 (by norm_num) (by norm_num)
    (by norm_num) (by norm_num)

/-- C5: when the fetch of a monitoring cycle fails, each watcher's cycle
leaves its state (including the registered timer) untouched, emits only a
transient error event, issues no alert and persists nothing. -/
theorem watchers_fetch_failure_no_mutation (token : TrackedToken) (nowT : ℕ)
    (cfgH : HoldingsWatcherConfig) (sH : HoldingsState) (nowH : ℕ)
    (cfgQ : IQWatcherConfig) (sQ : IQState) (nowQ : ℕ) :
    checkTokenPrice token Option.none nowT = (token, [TokenEvent.error], []) ∧
    checkHoldings cfgH sH Option.none nowH = (sH, [HoldingsEvent.error], []) ∧
    checkIQPrice cfgQ sQ Option.none nowQ = (sQ, [TokenEvent.error], []) :=
  ⟨rfl, rfl, rfl⟩

/-- C2: a `threshold_reached` alert is emitted exactly on a false→true
transition of the latch, the new latch value is `currentValue ≥
thresholdUsd` (so it resets when the value falls below the threshold),
and with `thresholdUsd = 1000` the sample sequence
`[900, 1050, 1100, 950, 1200]` from the initial state alerts exactly on
the second and fifth samples. -/
theorem checkHoldings_threshold_latch (cfg : HoldingsWatcherConfig)
    (s : HoldingsState) (v : ℚ) (now : ℕ) :
    (HoldingsEvent.thresholdReached ∈ (checkHoldings cfg s (Option.some v) now).2.1 ↔
      s.thresholdReached = false ∧ cfg.thresholdUsd ≤ v) ∧
    ((checkHoldings cfg s (Option.some v) now).1.thresholdReached =
      decide (cfg.thresholdUsd ≤ v)) ∧
    ((runHoldingsCycles ⟨"w", 1000, 300, 5⟩ ⟨0, 0, false⟩
        [Option.some 900, Option.some 1050, Option.some 1100, Option.some 950,
         Option.some 1200]).2.map
      (fun es => es.count HoldingsEvent.thresholdReached) = [0, 1, 0, 0, 1]) := by
  refine ⟨?_, checkHoldings_latch cfg s v now, ?_⟩
  · rw [checkHoldings_events]
    simp only [List.mem_append]
    constructor
    · rintro (hs | ht)
      · exfalso
        revert hs
        split_ifs <;> simp
      · revert ht
        split_ifs with hcond
        · intro _
          exact ⟨hcond.2, hcond.1⟩
        · simp
    · rintro ⟨hr, hv⟩
      right
      rw [if_pos ⟨hv, hr⟩]
      simp
  · have hp2 : calculatePercentageChange 900 1050 = 50 / 3 := by
      norm_num [calculatePercentageChange]
    have ha2 : |(50 / 3 : ℚ)| = 50 / 3 := abs_of_pos (by norm_num)
    have e1 : checkHoldings ⟨"w", 1000, 300, 5⟩ ⟨0, 0, false⟩ (Option.some 900) 0 =
        (⟨900, 0, false⟩, [], []) := by
      rw [checkHoldings_some]; norm_num
    have e2 : checkHoldings ⟨"w", 1000, 300, 5⟩ ⟨900, 0, false⟩ (Option.some 1050) 0 =
        (⟨1050, 0, true⟩,
         [HoldingsEvent.significantChange (50 / 3), HoldingsEvent.thresholdReached],
         [DbWrite.addAlert, DbWrite.addAlert]) := by
      rw [checkHoldings_some]; norm_num [hp2, ha2]
    have hp3 : calculatePercentageChange 1050 1100 = 100 / 21 := by
      norm_num [calculatePercentageChange]
    have ha3 : |(100 / 21 : ℚ)| = 100 / 21 := abs_of_pos (by norm_num)
    have e3 : checkHoldings ⟨"w", 1000, 300, 5⟩ ⟨1050, 0, true⟩ (Option.some 1100) 0 =
        (⟨1100, 0, true⟩, [], []) := by
      rw [checkHoldings_some]; norm_num [hp3, ha3]
    have hp4 : calculatePercentageChange 1100 950 = -150 / 11 := by
      norm_num [calculatePercentageChange]
    have ha4 : |(-150 / 11 : ℚ)| = 150 / 11 := by
      rw [abs_of_neg (by norm_num)]
      norm_num
    have ha4b : |(150 / 11 : ℚ)| = 150 / 11 := abs_of_pos (by norm_num)
    have e4 : checkHoldings ⟨"w", 1000, 300, 5⟩ ⟨1100, 0, true⟩ (Option.some 950) 0 =
        (⟨950, 0, false⟩, [HoldingsEvent.significantChange (-150 / 11)],
         [DbWrite.addAlert]) := by
      rw [checkHoldings_some]; norm_num [hp4, ha4, ha4b]
    have hp5 : calculatePercentageChange 950 1200 = 500 / 19 := by
      norm_num [calculatePercentageChange]
    have ha5 : |(500 / 19 : ℚ)| = 500 / 19 := abs_of_pos (by norm_num)
    have e5 : checkHoldings ⟨"w", 1000, 300, 5⟩ ⟨950, 0, false⟩ (Option.some 1200) 0 =
        (⟨1200, 0, true⟩,
         [HoldingsEvent.significantChange (500 / 19), HoldingsEvent.thresholdReached],
         [DbWrite.addAlert, DbWrite.addAlert]) := by
      rw [checkHoldings_some]; norm_num [hp5, ha5]
    simp only [runHoldingsCycles, e1, e2, e3, e4, e5, List.map]
    decide

lemma checkIQPrice_some (cfg : IQWatcherConfig) (s : IQState) (currentPrice : ℚ) (now : ℕ) :
    checkIQPrice cfg s (Option.some currentPrice) now =
      (if 0 < s.lastKnownPrice then
        let changePercentage := calculatePercentageChange s.lastKnownPrice currentPrice
        if |changePercentage| = 0 then (s, [], [])
        else
          let c := iqAlertCascade cfg changePercentage
          let fired := c.2.2 = true ∧ 0 < c.2.1
          (⟨currentPrice, now⟩,
           if fired then [TokenEvent.alert c.1 changePercentage] else [],
           (if fired then [DbWrite.addAlert] else []) ++
             [DbWrite.addPriceHistory currentPrice now])
      else
        (⟨currentPrice, now⟩, [], [DbWrite.addPriceHistory currentPrice now])) := rfl

/-- C3 (amended): with a stored previous value of exactly 0 — the very
first observation — no watcher emits a percentage-change alert; the
holdings and IQ watchers suppress for every previous value ≤ 0 (their
blocks are guarded by `previous > 0`), but the token price watcher's
suppression rests solely on `calculatePercentageChange` returning 0 at
`previousValue === 0` and does not extend to negative stored values. -/
theorem watchers_no_alert_before_baseline (token : TrackedToken) (fetchT : Option ℚ)
    (nowT : ℕ) (cfgH : HoldingsWatcherConfig) (sH : HoldingsState) (fH : Option ℚ)
    (nowH : ℕ) (cfgQ : IQWatcherConfig) (sQ : IQState) (fQ : Option ℚ) (nowQ : ℕ)
    (h0 : token.lastPrice = 0) (hH : sH.lastKnownValue ≤ 0) (hQ : sQ.lastKnownPrice ≤ 0) :
    (checkTokenPrice token fetchT nowT).2.1.all (fun e => !isAlertEvent e) = true ∧
    (checkHoldings cfgH sH fH nowH).2.1.all (fun e => !isSignificantChangeEvent e) = true ∧
    (checkIQPrice cfgQ sQ fQ nowQ).2.1.all (fun e => !isAlertEvent e) = true := by
  refine ⟨?_, ?_, ?_⟩
  · cases fetchT with
    | none => rfl
    | some currentPrice =>
      rw [checkTokenPrice_zero_pct token currentPrice nowT
        (by rw [h0]; simp [calculatePercentageChange])]
      rfl
  · cases fH with
    | none => rfl
    | some currentValue =>
      have hev := checkHoldings_events cfgH sH currentValue nowH
      rw [show (checkHoldings cfgH sH (Option.some currentValue) nowH).2.1 = _ from hev]
      rw [if_neg (not_lt.mpr hH)]
      split_ifs <;> rfl
  · cases fQ with
    | none => rfl
    | some currentPrice =>
      rw [checkIQPrice_some, if_neg (not_lt.mpr hQ)]
      rfl

theorem watchers_no_alert_before_baseline_witness :
    (checkTokenPrice ⟨⟨"T", ⟨2, 10, 20⟩, 60, true, true, true⟩, 0, 0, true⟩
        (Option.some 5) 1).2.1.all (fun e => !isAlertEvent e) = true ∧
    (checkHoldings ⟨"w", 1000, 300, 5⟩ ⟨0, 0, false⟩ (Option.some 7) 1).2.1.all
      (fun e => !isSignificantChangeEvent e) = true ∧
    (checkIQPrice ⟨2, 10, 20, 60, true, true, true⟩ ⟨0, 0⟩ (Option.some 9) 1).2.1.all
      (fun e => !isAlertEvent e) = true :=
  watchers_no_alert_before_baseline
    ⟨⟨"T", ⟨2, 10, 20⟩, 60, true, true, true⟩, 0, 0, true⟩ (Option.some 5) 1
    ⟨"w", 1000, 300, 5⟩ ⟨0, 0, false⟩ (Option.some 7) 1
    ⟨2, 10, 20, 60, true, true, true⟩ ⟨0, 0⟩ (Option.some 9) 1
    rfl (by norm_num) (by norm_num)

/-- C3 (counterexample): with a *negative* stored previous value the
token-price watcher does classify and alert — `lastPrice = -100`,
fetched price `-79` gives Δ% = -21 and a critical alert, contradicting
"no alert whenever previousValue ≤ 0" for the token watcher. -/
theorem checkTokenPrice_negative_previous_alerts :
    ((-100 : ℚ) ≤ 0) ∧
    (checkTokenPrice ⟨⟨"T", ⟨2, 10, 20⟩, 60, true, true, true⟩, -100, 0, true⟩
        (Option.some (-79)) 1).2.1 =
      [TokenEvent.alert Tier.critical (-21)] := by
  constructor
  · norm_num
  · rw [checkTokenPrice_pct _ _ (-21) 1 (by norm_num [calculatePercentageChange])
      (by norm_num)]
    decide

/-- C8: on the very first successful holdings sample (no baseline,
`lastKnownValue = 0`) with the latch down and the fetched value at or
above `thresholdUsd`, the `threshold_reached` alert fires immediately and
is the only event of the cycle. -/
theorem checkHoldings_first_sample_threshold_alert (cfg : HoldingsWatcherConfig)
    (s : HoldingsState) (v : ℚ) (now : ℕ) (h0 : s.lastKnownValue = 0)
    (hr : s.thresholdReached = false) (hv : cfg.thresholdUsd ≤ v) :
    (checkHoldings cfg s (Option.some v) now).2.1 = [HoldingsEvent.thresholdReached] ∧
    (checkHoldings cfg s (Option.some v) now).1.thresholdReached = true := by
  constructor
  · rw [checkHoldings_events, if_neg (by rw [h0]; exact lt_irrefl 0), if_pos ⟨hv, hr⟩]
    rfl
  · rw [checkHoldings_latch]
    simp [hv]

theorem checkHoldings_first_sample_threshold_alert_witness :
    (checkHoldings ⟨"w", 1000, 300, 5⟩ ⟨0, 0, false⟩ (Option.some 1500) 0).2.1 =
      [HoldingsEvent.thresholdReached] ∧
    (checkHoldings ⟨"w", 1000, 300, 5⟩ ⟨0, 0, false⟩ (Option.some 1500) 0).1.thresholdReached =
      true :=
  checkHoldings_first_sample_threshold_alert ⟨"w", 1000, 300, 5⟩ ⟨0, 0, false⟩ 1500 0
    rfl rfl (by norm_num)

lemma find?_eq_none_of_not_contains (s : PriceWatcherState) (c : String)
    (h : containsToken s c = false) :
    s.trackedTokens.find? (fun kv => decide (kv.1 = c)) = Option.none := by
  rw [List.find?_eq_none]
  exact List.any_eq_false.mp h

lemma lookupToken_none_of_not_contains (s : PriceWatcherState) (c : String)
    (h : containsToken s c = false) : lookupToken s c = Option.none := by
  unfold lookupToken
  rw [find?_eq_none_of_not_contains s c h]
  rfl

lemma countToken_zero (s : PriceWatcherState) (c : String)
    (h : containsToken s c = false) : countToken s c = 0 := by
  unfold countToken
  rw [List.filter_eq_nil_iff.mpr (List.any_eq_false.mp h)]
  rfl

lemma addToken_present (s : PriceWatcherState) (c name : String) (t iv : ℚ)
    (f : Option ℚ) (now : ℕ) (h : containsToken s c = true) :
    addToken s c name t iv f now = ⟨s, false, [], [], false⟩ := by
  unfold addToken
  rw [if_pos h]

lemma addToken_absent (s : PriceWatcherState) (c name : String) (t iv price : ℚ)
    (now : ℕ) (h : containsToken s c = false) :
    addToken s c name t iv (Option.some price) now =
      ⟨⟨s.trackedTokens ++
          [(c, ⟨⟨name, ⟨t, t * 3, t * 5⟩, iv, true, true, true⟩, price, now, s.isRunning⟩)],
        s.isRunning⟩,
       true,
       [DbWrite.addWatchedToken t (t * 3) (t * 5) iv price],
       [WatcherEvent.tokenAdded price],
       false⟩ := by
  unfold addToken setToken
  simp [h]

lemma containsToken_append_self (l : List (String × TrackedToken)) (b : Bool)
    (c : String) (tok : TrackedToken) :
    containsToken ⟨l ++ [(c, tok)], b⟩ c = true := by
  unfold containsToken
  simp

lemma countToken_append_self (l : List (String × TrackedToken)) (b : Bool)
    (c : String) (tok : TrackedToken) :
    countToken ⟨l ++ [(c, tok)], b⟩ c = countToken ⟨l, b⟩ c + 1 := by
  unfold countToken
  rw [List.filter_append]
  simp

lemma lookupToken_append_self (s : PriceWatcherState) (c : String) (tok : TrackedToken)
    (b : Bool) (h : containsToken s c = false) :
    lookupToken ⟨s.trackedTokens ++ [(c, tok)], b⟩ c = Option.some tok := by
  unfold lookupToken
  dsimp only
  rw [List.find?_append, find?_eq_none_of_not_contains s c h]
  simp

lemma containsToken_of_lookup (s : PriceWatcherState) (c : String) (tok0 : TrackedToken)
    (h : lookupToken s c = Option.some tok0) : containsToken s c = true := by
  unfold lookupToken at h
  rcases Option.map_eq_some'.mp h with ⟨kv, hfind, -⟩
  have hm := List.mem_of_find?_eq_some hfind
  have hp := List.find?_some hfind
  unfold containsToken
  rw [List.any_eq_true]
  exact ⟨kv, hm, hp⟩

lemma find?_map_replace (l : List (String × TrackedToken)) (c : String) (tok : TrackedToken)
    (h : (l.find? (fun kv => decide (kv.1 = c))).isSome = true) :
    (l.map (fun kv => if kv.1 = c then (c, tok) else kv)).find?
        (fun kv => decide (kv.1 = c)) = Option.some (c, tok) := by
  induction l with
  | nil => simp at h
  | cons kv rest ih =>
    by_cases hk : kv.1 = c
    · simp [List.map_cons, hk]
    · rw [List.map_cons, if_neg hk, List.find?_cons_of_neg _ (by simp [hk])]
      rw [List.find?_cons_of_neg _ (by simp [hk])] at h
      exact ih h

lemma lookupToken_setToken_self (s : PriceWatcherState) (c : String)
    (tok tok0 : TrackedToken) (h : lookupToken s c = Option.some tok0) :
    lookupToken (setToken s c tok) c = Option.some tok := by
  have hc : containsToken s c = true := containsToken_of_lookup s c tok0 h
  unfold setToken
  rw [if_pos hc]
  unfold lookupToken
  dsimp only
  rw [find?_map_replace]
  · rfl
  · unfold lookupToken at h
    rcases Option.map_eq_some'.mp h with ⟨kv, hfind, -⟩
    simp [hfind]

/-- C4 (amended): `updateTokenConfig` performs no validation.  On a
tracked token, any updates — including a tier configuration with
`major ≤ minor` — are merged into the in-memory target and the merged
values persisted; no error is raised and no update is rejected. -/
theorem updateTokenConfig_no_validation (s : PriceWatcherState) (c : String)
    (u : TokenConfigUpdates) (tok : TrackedToken) (newTh : ThresholdConfig)
    (h : lookupToken s c = Option.some tok) (hth : u.thresholds = Option.some newTh)
    (hviol : newTh.major ≤ newTh.minor) :
    ((lookupToken (updateTokenConfig s c u).1 c).map (fun x => x.config.thresholds) =
      Option.some newTh) ∧
    (updateTokenConfig s c u).2 =
      [DbWrite.updateWatchedTokenConfig (applyConfigUpdates tok.config u).tokenName
        (applyConfigUpdates tok.config u).thresholds
        (applyConfigUpdates tok.config u).checkInterval
        (applyConfigUpdates tok.config u).enableMinorAlerts
        (applyConfigUpdates tok.config u).enableMajorAlerts
        (applyConfigUpdates tok.config u).enableCriticalAlerts] := by
  unfold updateTokenConfig
  rw [h]
  dsimp only
  constructor
  · rw [lookupToken_setToken_self s c _ tok h]
    simp [applyConfigUpdates, hth]
  · rfl

theorem updateTokenConfig_no_validation_witness :
    ((lookupToken (updateTokenConfig ⟨[("T", ⟨⟨"T", ⟨2, 10, 20⟩, 60, true, true, true⟩,
          100, 0, true⟩)], true⟩ "T"
        ⟨Option.none, Option.some ⟨10, 5, 20⟩, Option.none, Option.none, Option.none,
         Option.none⟩).1 "T").map (fun x => x.config.thresholds) =
      Option.some ⟨10, 5, 20⟩) ∧
    (updateTokenConfig ⟨[("T", ⟨⟨"T", ⟨2, 10, 20⟩, 60, true, true, true⟩, 100, 0, true⟩)],
        true⟩ "T"
      ⟨Option.none, Option.some ⟨10, 5, 20⟩, Option.none, Option.none, Option.none,
       Option.none⟩).2 =
      [DbWrite.updateWatchedTokenConfig "T" ⟨10, 5, 20⟩ 60 true true true] :=
  updateTokenConfig_no_validation
    ⟨[("T", ⟨⟨"T", ⟨2, 10, 20⟩, 60, true, true, true⟩, 100, 0, true⟩)], true⟩ "T"
    ⟨Option.none, Option.some ⟨10, 5, 20⟩, Option.none, Option.none, Option.none,
     Option.none⟩
    ⟨⟨"T", ⟨2, 10, 20⟩, 60, true, true, true⟩, 100, 0, true⟩ ⟨10, 5, 20⟩
    (by decide) rfl (by norm_num)

/-- C4 (counterexample): updating a tracked token with tiers
`{minor 10, major 5, critical 20}` (major ≤ minor) is not rejected: the
in-memory target changes and a database write is issued. -/
theorem updateTokenConfig_accepts_invalid_tiers :
    ((5 : ℚ) ≤ 10) ∧
    ((lookupToken (updateTokenConfig ⟨[("T", ⟨⟨"T", ⟨2, 10, 20⟩, 60, true, true, true⟩,
          100, 0, true⟩)], true⟩ "T"
        ⟨Option.none, Option.some ⟨10, 5, 20⟩, Option.none, Option.none, Option.none,
         Option.none⟩).1 "T").map (fun x => x.config.thresholds) =
      Option.some ⟨10, 5, 20⟩) ∧
    (updateTokenConfig ⟨[("T", ⟨⟨"T", ⟨2, 10, 20⟩, 60, true, true, true⟩, 100, 0, true⟩)],
        true⟩ "T"
      ⟨Option.none, Option.some ⟨10, 5, 20⟩, Option.none, Option.none, Option.none,
       Option.none⟩).1 ≠
      ⟨[("T", ⟨⟨"T", ⟨2, 10, 20⟩, 60, true, true, true⟩, 100, 0, true⟩)], true⟩ ∧
    (updateTokenConfig ⟨[("T", ⟨⟨"T", ⟨2, 10, 20⟩, 60, true, true, true⟩, 100, 0, true⟩)],
        true⟩ "T"
      ⟨Option.none, Option.some ⟨10, 5, 20⟩, Option.none, Option.none, Option.none,
       Option.none⟩).2 ≠ [] := by
  decide

/-- C6: `addToken` is idempotent on a tracked id — after a successful
first add, a second call with the same contract and config leaves the
state untouched with exactly one entry for that id, performs no baseline
fetch, no database write and no `token_added` event. -/
theorem addToken_idempotent (s : PriceWatcherState) (c name : String) (t iv price : ℚ)
    (f2 : Option ℚ) (now1 now2 : ℕ) (h : containsToken s c = false) :
    ((addToken (addToken s c name t iv (Option.some price) now1).state c name t iv
        f2 now2).state = (addToken s c name t iv (Option.some price) now1).state) ∧
    countToken (addToken (addToken s c name t iv (Option.some price) now1).state c name t
        iv f2 now2).state c = 1 ∧
    (addToken (addToken s c name t iv (Option.some price) now1).state c name t iv
        f2 now2).fetched = false ∧
    (addToken (addToken s c name t iv (Option.some price) now1).state c name t iv
        f2 now2).dbWrites = [] ∧
    (addToken (addToken s c name t iv (Option.some price) now1).state c name t iv
        f2 now2).events = [] := by
  have h1 := addToken_absent s c name t iv price now1 h
  have hc1 : containsToken (addToken s c name t iv (Option.some price) now1).state c =
      true := by
    rw [h1]
    exact containsToken_append_self s.trackedTokens s.isRunning c _
  have h2 := addToken_present _ c name t iv f2 now2 hc1
  rw [h2]
  refine ⟨rfl, ?_, rfl, rfl, rfl⟩
  rw [h1]
  dsimp only
  rw [countToken_append_self s.trackedTokens s.isRunning c _]
  rw [show (⟨s.trackedTokens, s.isRunning⟩ : PriceWatcherState) = s from rfl]
  rw [countToken_zero s c h]

theorem addToken_idempotent_witness :
    ((addToken (addToken ⟨[], false⟩ "A" "N" 5 60 (Option.some 1) 0).state "A" "N" 5 60
        (Option.some 2) 1).state = (addToken ⟨[], false⟩ "A" "N" 5 60 (Option.some 1) 0).state) ∧
    countToken (addToken (addToken ⟨[], false⟩ "A" "N" 5 60 (Option.some 1) 0).state "A"
        "N" 5 60 (Option.some 2) 1).state "A" = 1 ∧
    (addToken (addToken ⟨[], false⟩ "A" "N" 5 60 (Option.some 1) 0).state "A" "N" 5 60
        (Option.some 2) 1).fetched = false ∧
    (addToken (addToken ⟨[], false⟩ "A" "N" 5 60 (Option.some 1) 0).state "A" "N" 5 60
        (Option.some 2) 1).dbWrites = [] ∧
    (addToken (addToken ⟨[], false⟩ "A" "N" 5 60 (Option.some 1) 0).state "A" "N" 5 60
        (Option.some 2) 1).events = [] :=
  addToken_idempotent ⟨[], false⟩ "A" "N" 5 60 1 (Option.some 2) 0 1 (by decide)

/-- C9: `updateTokenAlerts` throws exactly when the contract is
untracked, and in that case mutates neither the in-memory map nor the
database; `updateTokenConfig` on the same untracked contract instead
returns silently with no mutation and no write. -/
theorem updateTokenAlerts_throws_iff_untracked (s : PriceWatcherState) (c : String)
    (u : AlertConfigUpdates) (uc : TokenConfigUpdates) :
    ((updateTokenAlerts s c u).2.2 = true ↔ lookupToken s c = Option.none) ∧
    (lookupToken s c = Option.none →
      (updateTokenAlerts s c u).1 = s ∧ (updateTokenAlerts s c u).2.1 = [] ∧
      updateTokenConfig s c uc = (s, [])) := by
  rcases hl : lookupToken s c with _ | tok
  · refine ⟨by simp [updateTokenAlerts, hl], fun _ => ?_⟩
    refine ⟨?_, ?_, ?_⟩ <;> simp [updateTokenAlerts, updateTokenConfig, hl]
  · refine ⟨by simp [updateTokenAlerts, hl], fun hnone => ?_⟩
    exact absurd hnone (by simp)

theorem updateTokenAlerts_throws_iff_untracked_witness :
    ((updateTokenAlerts ⟨[], false⟩ "A" ⟨Option.none, Option.none, Option.none⟩).2.2 =
      true) ∧
    ((updateTokenAlerts ⟨[], false⟩ "A" ⟨Option.none, Option.none, Option.none⟩).1 =
      ⟨[], false⟩) ∧
    ((updateTokenAlerts ⟨[], false⟩ "A" ⟨Option.none, Option.none, Option.none⟩).2.1 =
      []) ∧
    (updateTokenConfig ⟨[], false⟩ "A"
        ⟨Option.none, Option.none, Option.none, Option.none, Option.none, Option.none⟩ =
      (⟨[], false⟩, [])) := by
  have H := updateTokenAlerts_throws_iff_untracked ⟨[], false⟩ "A"
    ⟨Option.none, Option.none, Option.none⟩
    ⟨Option.none, Option.none, Option.none, Option.none, Option.none, Option.none⟩
  exact ⟨H.1.mpr (by decide), (H.2 (by decide)).1, (H.2 (by decide)).2.1,
    (H.2 (by decide)).2.2⟩

/-- C10: the tier configuration `addToken` builds from a positive
`priceChangeThreshold` `t` — minor `t`, major `3t`, critical `5t` —
satisfies `0 < minor < major < critical`, both in the registered
in-memory target and in the persisted row. -/
theorem addToken_default_tier_ordering (s : PriceWatcherState) (c name : String)
    (t iv price : ℚ) (now : ℕ) (ht : 0 < t) (h : containsToken s c = false) :
    ((lookupToken (addToken s c name t iv (Option.some price) now).state c).map
        (fun x => x.config.thresholds) = Option.some ⟨t, t * 3, t * 5⟩) ∧
    (addToken s c name t iv (Option.some price) now).dbWrites =
      [DbWrite.addWatchedToken t (t * 3) (t * 5) iv price] ∧
    0 < t ∧ t < t * 3 ∧ t * 3 < t * 5 := by
  have h1 := addToken_absent s c name t iv price now h
  refine ⟨?_, ?_, ht, by linarith, by linarith⟩
  · rw [h1]
    dsimp only
    rw [lookupToken_append_self s c _ s.isRunning h]
    rfl
  · rw [h1]

theorem addToken_default_tier_ordering_witness :
    ((lookupToken (addToken ⟨[], false⟩ "A" "N" 5 60 (Option.some 1) 0).state "A").map
        (fun x => x.config.thresholds) = Option.some ⟨5, 5 * 3, 5 * 5⟩) ∧
    (addToken ⟨[], false⟩ "A" "N" 5 60 (Option.some 1) 0).dbWrites =
      [DbWrite.addWatchedToken 5 (5 * 3) (5 * 5) 60 1] ∧
    (0 : ℚ) < 5 ∧ (5 : ℚ) < 5 * 3 ∧ (5 : ℚ) * 3 < 5 * 5 :=
  addToken_default_tier_ordering ⟨[], false⟩ "A" "N" 5 60 1 0 (by norm_num) (by decide)

lemma checkTokenPrice_state_writes (token : TrackedToken) (cur : ℚ) (now : ℕ)
    (h : calculatePercentageChange token.lastPrice cur ≠ 0) :
    (checkTokenPrice token (Option.some cur) now).1 =
      { token with lastPrice := cur, lastCheckTime := now } ∧
    (checkTokenPrice token (Option.some cur) now).2.2 =
      [DbWrite.addPriceHistory cur now, DbWrite.updateWatchedToken cur now] := by
  rw [checkTokenPrice_some]
  simp only [abs_eq_zero]
  rw [if_neg h]
  exact ⟨rfl, rfl⟩

lemma runTokenPriceCycles_cons (token : TrackedToken) (h : List PriceHistoryRow)
    (f : Option ℚ) (fs : List (Option ℚ)) :
    runTokenPriceCycles token h (f :: fs) =
      runTokenPriceCycles (checkTokenPrice token f h.length).1
        (applyHistoryWrites h (checkTokenPrice token f h.length).2.2) fs := rfl

lemma runTokenPriceCycles_incFetches (n : ℕ) :
    ∀ (k : ℕ) (token : TrackedToken) (h : List PriceHistoryRow),
      token.lastPrice = (k : ℚ) + 1 →
      ((runTokenPriceCycles token h (incFetches k n)).2).length = h.length + n := by
  induction n with
  | zero =>
    intro k token h _
    rfl
  | succ n ih =>
    intro k token h hlp
    have hinc : incFetches k (n + 1) =
        Option.some ((k : ℚ) + 2) :: incFetches (k + 1) n := rfl
    rw [hinc, runTokenPriceCycles_cons]
    have hne : calculatePercentageChange token.lastPrice ((k : ℚ) + 2) ≠ 0 := by
      rw [hlp]
      unfold calculatePercentageChange
      rw [if_neg (by positivity)]
      have h1 : ((k : ℚ) + 2) - ((k : ℚ) + 1) = 1 := by ring
      rw [h1]
      positivity
    obtain ⟨hst, hwr⟩ := checkTokenPrice_state_writes token ((k : ℚ) + 2) h.length hne
    rw [hst, hwr]
    have happ : applyHistoryWrites h
        [DbWrite.addPriceHistory ((k : ℚ) + 2) h.length,
         DbWrite.updateWatchedToken ((k : ℚ) + 2) h.length] =
        h ++ [⟨(k : ℚ) + 2, h.length⟩] := rfl
    rw [happ]
    have hlp2 : ({ token with lastPrice := (k : ℚ) + 2, lastCheckTime := h.length } :
        TrackedToken).lastPrice = ((k + 1 : ℕ) : ℚ) + 1 := by
      show (k : ℚ) + 2 = ((k + 1 : ℕ) : ℚ) + 1
      push_cast
      ring
    rw [ih (k + 1) _ _ hlp2]
    rw [List.length_append]
    simp
    omega

/-- C7 (counterexample): 1001 sampling cycles (each with a fresh price)
insert 1001 `price_history` rows for the target and nothing ever removes
any — the retained count exceeds the claimed bound of 1000, because no
code path of the repository invokes `cleanOldPriceHistory`. -/
theorem priceHistory_unbounded_growth :
    1000 <
      ((runTokenPriceCycles ⟨⟨"T", ⟨2, 10, 20⟩, 60, true, true, true⟩, 1, 0, true⟩ []
          (incFetches 0 1001)).2).length ∧
    ((runTokenPriceCycles ⟨⟨"T", ⟨2, 10, 20⟩, 60, true, true, true⟩, 1, 0, true⟩ []
        (incFetches 0 1001)).2).length = 1001 := by
  have h := runTokenPriceCycles_incFetches 1001 0
    ⟨⟨"T", ⟨2, 10, 20⟩, 60, true, true, true⟩, 1, 0, true⟩ [] (by norm_num)
  constructor
  · rw [h]
    norm_num
  · rw [h]
    norm_num

lemma countLaterRows_cons_self (a : PriceHistoryRow) (t : List PriceHistoryRow)
    (ha : ∀ r ∈ t, a.timestamp < r.timestamp) :
    countLaterRows (a :: t) a = t.length := by
  unfold countLaterRows
  rw [List.filter_cons, if_neg (by simp)]
  rw [List.filter_eq_self.mpr (by intro r hr; simpa using ha r hr)]

lemma countLaterRows_cons_mem (a r : PriceHistoryRow) (t : List PriceHistoryRow)
    (har : a.timestamp < r.timestamp) :
    countLaterRows (a :: t) r = countLaterRows t r := by
  unfold countLaterRows
  rw [List.filter_cons, if_neg (by simp; omega)]

lemma cleanOldPriceHistory_eq_drop (h : List PriceHistoryRow)
    (hs : h.Pairwise (fun a b => a.timestamp < b.timestamp)) :
    cleanOldPriceHistory h = h.drop (h.length - 1000) := by
  induction h with
  | nil => rfl
  | cons a t ih =>
    rcases List.pairwise_cons.mp hs with ⟨ha, ht⟩
    unfold cleanOldPriceHistory
    rw [List.filter_cons]
    have hself : countLaterRows (a :: t) a = t.length := countLaterRows_cons_self a t ha
    have hmem : ∀ r ∈ t,
        (decide (countLaterRows (a :: t) r < 1000)) =
          (decide (countLaterRows t r < 1000)) := by
      intro r hr
      rw [countLaterRows_cons_mem a r t (ha r hr)]
    rw [List.filter_congr hmem]
    have hct : t.filter (fun r => decide (countLaterRows t r < 1000)) =
        cleanOldPriceHistory t := rfl
    by_cases hlen : t.length < 1000
    · rw [if_pos (by simp [hself, hlen])]
      have hfix : cleanOldPriceHistory t = t := by
        unfold cleanOldPriceHistory
        rw [List.filter_eq_self]
        intro r hr
        simp only [decide_eq_true_eq]
        have hb : countLaterRows t r ≤ t.length := List.length_filter_le _ _
        omega
      rw [hct, hfix]
      rw [show (a :: t).length - 1000 = 0 from by simp; omega, List.drop_zero]
    · rw [if_neg (by simp [hself]; omega)]
      rw [hct, ih ht]
      rw [show (a :: t).length - 1000 = (t.length - 1000) + 1 from by simp; omega]
      rw [List.drop_succ_cons]

/-- C7 (amended): `cleanOldPriceHistory`, when invoked on a target's rows
(with distinct, increasing timestamps), retains exactly the
`min count 1000` most recent rows, evicting the oldest first (the result
is a suffix of the insertion-ordered table); sampling cycles themselves
only append (see the counterexample), so the bound holds only upon an
explicit cleanup call, which the monitoring loops never make. -/
theorem cleanOldPriceHistory_bounds_history (h : List PriceHistoryRow)
    (hs : h.Pairwise (fun a b => a.timestamp < b.timestamp)) :
    (cleanOldPriceHistory h).length = min h.length 1000 ∧
    cleanOldPriceHistory h <:+ h := by
  rw [cleanOldPriceHistory_eq_drop h hs]
  constructor
  · rw [List.length_drop]
    omega
  · exact List.drop_suffix _ _

theorem cleanOldPriceHistory_bounds_history_witness :
    (cleanOldPriceHistory [⟨1, 0⟩, ⟨2, 1⟩]).length = min 2 1000 ∧
    cleanOldPriceHistory [⟨1, 0⟩, ⟨2, 1⟩] <:+ [⟨1, 0⟩, ⟨2, 1⟩] :=
  cleanOldPriceHistory_bounds_history [⟨1, 0⟩, ⟨2, 1⟩] (by decide)
